import Mathlib

/-!
Shallow embedding of the two batch-classification scripts
`rubric_0_shot.py` and `rubric_many_shots.py`.

Both scripts load a CSV into a pandas dataframe, check that the configured
text column is present, extract that column with missing values replaced by
the empty string, build one prompt per row by string concatenation, submit
the batch to an external LLM service, collect per-row outputs (the zero-shot
variant parses the generated text as JSON, the few-shot variant stores the
raw trimmed text), append the result columns to the dataframe and write it.

The embedding models Python values (`Py`), the dataframe (`Table`, an ordered
list of named columns), the external service results (`RequestOutput`), and
the two `main` functions, parameterised by the external `json.loads`
(`jl : String → Except String Py`) and the external batch generation call
(`generate : List String → List RequestOutput`), which live outside this
repository.
-/

/-- Model of a Python runtime value as produced by `json.loads` and stored in
dataframe cells.  `Py.none` models both Python `None` and pandas missing
values (NaN). -/
inductive Py where
  | none
  | bool (b : Bool)
  | int (n : Int)
  | str (s : String)
  | list (l : List Py)
  | dict (l : List (String × Py))

/-- The Python type name of a value, as used in Python error messages. -/
def Py.typeName : Py → String
  | .none => "NoneType"
  | .bool _ => "bool"
  | .int _ => "int"
  | .str _ => "str"
  | .list _ => "list"
  | .dict _ => "dict"

/-- Boolean test for the `Py.none` value. -/
def Py.isNone : Py → Bool
  | .none => true
  | _ => false

instance (v : Py) : Decidable (v = Py.none) :=
  decidable_of_iff (Py.isNone v = true) (by cases v <;> simp [Py.isNone])

/-- Model of Python `str.strip()`: remove leading and trailing whitespace. -/
def pyStrip (s : String) : String :=
  String.mk (((s.data.dropWhile Char.isWhitespace).reverse.dropWhile
    Char.isWhitespace).reverse)

/-- The message of the `AttributeError` raised by Python when `.get` is
called on a non-dict value (as happens in the zero-shot script when
`json.loads` returns a non-object). -/
def noAttrMsg (v : Py) : String :=
  "\x27" ++ v.typeName ++ "\x27 object has no attribute \x27get\x27"

/-- Association-list lookup with string keys, first match wins; models
Python dict indexing on the dicts produced by `json.loads` (unique keys). -/
def dictLookup {α : Type} (n : String) : List (String × α) → Option α
  | [] => Option.none
  | (k, v) :: rest => if k = n then some v else dictLookup n rest

/-- Model of Python `v.get(k)`: on a dict, the value at `k` or `None`;
on any other value, an `AttributeError` (modelled as `Except.error`). -/
def pyGet (v : Py) (k : String) : Except String Py :=
  match v with
  | .dict l => .ok ((dictLookup k l).getD .none)
  | v => .error (noAttrMsg v)

/-- Model of Python `v.get(k, d)` with an explicit default. -/
def pyGetD (v : Py) (k : String) (d : Py) : Except String Py :=
  match v with
  | .dict l => .ok ((dictLookup k l).getD d)
  | v => .error (noAttrMsg v)

/-- The Python exceptions the scripts can raise: the explicit `ValueError`
for a missing text column, and the `TypeError` Python raises when string
concatenation meets a non-string comment cell. -/
inductive PyError where
  | valueError (msg : String)
  | typeError (msg : String)

/-- One generated completion of the external service (vLLM
`CompletionOutput`); only its `text` field is consumed by the scripts. -/
structure CompletionOutput where
  text : String

/-- The per-prompt result of the external service (vLLM `RequestOutput`);
the scripts inspect `outputs` for emptiness and read `outputs[0].text`. -/
structure RequestOutput where
  outputs : List CompletionOutput

/-- Model of the pandas dataframe: an ordered list of named columns, each a
list of cell values (`Py.none` models a missing value). -/
structure Table where
  cols : List (String × List Py)

/-- The column names of a table, in order (`df.columns`). -/
def Table.names (df : Table) : List String :=
  df.cols.map Prod.fst

/-- The values of the column named `n` (`df[n]`); `[]` if absent. -/
def Table.col (df : Table) (n : String) : List Py :=
  (dictLookup n df.cols).getD []

/-- The number of rows of a table (`len(df)`), read off the first column. -/
def Table.nrows (df : Table) : Nat :=
  match df.cols with
  | [] => 0
  | c :: _ => c.2.length

/-- A table is well formed when every column has `nrows` cells (dataframes
are rectangular). -/
def Table.wf (df : Table) : Prop :=
  ∀ c ∈ df.cols, c.2.length = df.nrows

/-- Model of pandas column assignment `df[n] = vals`: overwrite the column
if the name already exists, otherwise append a new column at the end. -/
def Table.setCol (df : Table) (n : String) (vals : List Py) : Table :=
  if n ∈ df.names then
    ⟨df.cols.map (fun c => if c.1 = n then (n, vals) else c)⟩
  else
    ⟨df.cols ++ [(n, vals)]⟩

/-- The `TEXT_COLUMN` configuration constant, identical in both scripts. -/
def TEXT_COLUMN : String := "body_text"

/-- Model of `Series.fillna("")` applied to one cell: a missing value
becomes the empty string, every other value is unchanged. -/
def fillna (v : Py) : Py :=
  match v with
  | .none => .str ""
  | v => v

/-- The extraction `df[TEXT_COLUMN].fillna("").tolist()`: the comment list both scripts
feed to prompt building. -/
def extractComments (df : Table) : List Py :=
  (df.col TEXT_COLUMN).map fillna

/-- The prompt-building loop (`for c in comments: prompts.append(...)`),
parameterised by the per-comment concatenation; the first `TypeError`
raised by a non-string cell propagates, as in Python. -/
def buildPrompts (f : Py → Except PyError String) : List Py → Except PyError (List String)
  | [] => .ok []
  | c :: cs =>
    match f c with
    | .error e => .error e
    | .ok p =>
      match buildPrompts f cs with
      | .error e => .error e
      | .ok ps => .ok (p :: ps)

/-- The message of the `ValueError` raised when the text column is absent. -/
def colErrMsg (df : Table) : String :=
  "Column " ++ TEXT_COLUMN ++ " not found in CSV. Available columns: " ++
    String.intercalate ", " df.names

namespace Rubric0Shot

/-- The fixed instruction template of `rubric_0_shot.py` (verbatim). -/
def SYSTEM_INSTRUCTIONS : String := "\nYou are analyzing comments written by Stack Exchange users during the 2023 moderation strike related to the platform-wide AI content moderation policy and data dump issues.\nEach comment expresses the author\x27s perspective on the strike.\n\nYou will classify the comments into five categories:\n\nCollective Voice\n\n[To determine if a Stack Exchange comment expresses Collective Voice, first check whether the comment is relevant to the 2023 SE moderation strike or strike-related events; if not, we say Collective Voice is false.\nIf it is relevant to the strike, check whether the author uses collective pronouns such as \u201cwe,\u201d \u201cus,\u201d \u201cour,\u201d \u201cthe moderators,\u201d \u201cthe community,\u201d or \u201cour users\u201d. Comments that use collective pronouns usually express a collective stance by showing evidence of shared goals, mutual care, frustrations, or coordinated actions\u2014such as organizing, signing petitions, or condemning the company as a group.\n\nIf the comment uses collective pronouns and falls into any of the categories mentioned above, we should classify it as Collective Voice.\n\nSometimes, even when the comment uses collective pronouns, it may not directly reflect shared goals, mutual care, frustrations, or coordinated actions. In this case, we should check for arguments against or critiques of the company\u2019s position from the community\x27s perspective, such as defending moderators or referencing \u201cthe community\u201d in opposition to the company\x27s actions. If the comment does not meet any of these conditions and is only neutral or individually focused, \u201cCollective Voice\u201d is false.\n\n\nIf collective pronouns are not used, comments that primarily share strike-related resources (e.g., links, lists, or updates) are also considered as Collective Voice.]\n\nIndividual Voice\n\n[To determine if a Stack Exchange comment expresses Individual Voice, first check whether the comment is relevant to the moderator strike or strike-related events; if not, we say \u201cIndividual Voice\u201d is false.\nIf it is relevant, check whether the comment focuses on the author\u2019s personal experience, judgment, or opinion rather than from a collective perspective.\n\n\nComments that emphasize individual perspectives, typically using first-person pronouns such as \u201cI,\u201d \u201cme,\u201d or \u201cmy,\u201d without referencing the broader community\u2019s stance, may be a signal for Individual Voice.\nNext, examine whether the comment conveys personal reasoning, decisions, or emotions to support or respond to the strike. For instance, statements such as \u201cI decided to stop moderating,\u201d or \u201cI personally feel conflicted.\u201d\nThese expressions indicate personal stance rather than group representation. If the comment lacks personal perspective, does not mention individual reasoning, we say \u201cIndividual Voice\u201d is false.]\n\nInternal Deliberation\n\n\n[To determine if a Stack Exchange comment is Internal Deliberation, first check whether the comment is relevant to clarifying, questioning, or debating the reasoning behind the strike. For example, explaining why moderators organized it, and discussing the validity and implications of the strike in broader governance terms. If it falls under these categories, we say \u201cInternal Deliberation\u201d is true. The key indicator here is that the author is analyzing, reflecting on, or reasoning through the community\u2019s internal conflicts or decision-making processes, rather than taking a clear stance for or against the strike.\nIf the comment is not related to the strike, but touches base on past governance structures, moderation policies, interpersonal conflicts, or general trust concerns(e.g., Monica Incident), we still say \u201cInternal Deliberation\u201d is true.\nIf the comment neither deliberates over governance issues nor relates current events to past community-company tensions, we say \u201cInternal Deliberation\u201d is false.]\n\nAlign with Company\n\n[To determine if a Stack Exchange comment expresses Align with the Company, first ask whether the comment is relevant to the moderator strike or strike-related events; if not, \u201cAlign With Company\u201d is false.\nIf it is relevant, check whether the comment explicitly or implicitly expresses agreement with, trust in, or support for Stack Exchange Inc.\u2019s decisions or policies related to the strike. (e.g., \u201cI am fully against this strike.)\nIf the comment falls under these categories, we say \u201cAlign with Company\u201d is true.\n\nThe key indicator is that the author\u2019s stance supports the company\u2019s position rather than aligning with community dissent or collective protest. If the comment only expresses neutrality or critiques the company instead, we say \u201cAlign With Company\u201d is false.]\n\nNone of the above\n\n[If the comment does not fall under any of the above categories, we say \u201cNone of the above\u201d is true.]\n\n\n### OUTPUT FORMAT\n\nYou MUST return a SINGLE JSON object that follows this exact schema:\n\n\x7b\n  \"individual_voice\": true/false,\n  \"collective_voice\": true/false,\n  \"internal_deliberation\": true/false,\n  \"align_with_company\": true/false,\n  \"none_of_the_above\": true/false,\n  \"reason\": \"Short explanation (1\u20132 sentences) for why you made this classification.\"\n\x7d\n\nYour response must ONLY be the JSON object.\nDo not include any additional text, explanations, or markdown.\nNow it\u2019s your turn. Classify the following Stack Exchange post according to the definitions above.\n"

/-- The JSON schema handed to guided decoding (config data; it is passed to
the external engine and never consumed by the script logic itself). -/
def JSON_SCHEMA : Py :=
  Py.dict
    [("type", .str "object"),
     ("properties", .dict
       [("individual_voice", .dict [("type", .str "boolean")]),
        ("collective_voice", .dict [("type", .str "boolean")]),
        ("internal_deliberation", .dict [("type", .str "boolean")]),
        ("align_with_company", .dict [("type", .str "boolean")]),
        ("none_of_the_above", .dict [("type", .str "boolean")]),
        ("reason", .dict [("type", .str "string")])]),
     ("required", .list
       [.str "individual_voice", .str "collective_voice",
        .str "internal_deliberation", .str "align_with_company",
        .str "none_of_the_above", .str "reason"]),
     ("additionalProperties", .bool false)]

/-- The zero-shot prompt for one comment cell:
`SYSTEM_INSTRUCTIONS + "\n\nComment:\n" + c + "\n\nReturn ONLY the JSON object."`;
a non-string cell raises the Python concatenation `TypeError`. -/
def buildPrompt (c : Py) : Except PyError String :=
  match c with
  | .str s =>
    .ok (SYSTEM_INSTRUCTIONS ++ "\n\nComment:\n" ++ s ++
      "\n\nReturn ONLY the JSON object.")
  | v =>
    .error (.typeError ("can only concatenate str (not \"" ++ v.typeName ++
      "\") to str"))

/-- The values appended for one row by one iteration of the collection
loop: the raw text plus the six parsed fields. -/
structure Row where
  raw : String
  indiv : Py
  coll : Py
  deliber : Py
  alignc : Py
  noneOf : Py
  reason : Py

/-- The `try` block of `rubric_0_shot.py`: `json.loads` on the stripped
text, then the six `.get` calls in source order; the first exception
(modelled as `Except.error`) aborts the block and carries its message. -/
def tryBlock (jl : String → Except String Py) (text : String) :
    Except String (Py × Py × Py × Py × Py × Py) :=
  match jl text with
  | .error e => .error e
  | .ok parsed =>
    match pyGet parsed "individual_voice" with
    | .error e => .error e
    | .ok i =>
      match pyGet parsed "collective_voice" with
      | .error e => .error e
      | .ok c =>
        match pyGet parsed "internal_deliberation" with
        | .error e => .error e
        | .ok d =>
          match pyGet parsed "align_with_company" with
          | .error e => .error e
          | .ok a =>
            match pyGet parsed "none_of_the_above" with
            | .error e => .error e
            | .ok n =>
              match pyGetD parsed "reason" (Py.str "") with
              | .error e => .error e
              | .ok r => .ok (i, c, d, a, n, r)

/-- The body of the collection loop of `rubric_0_shot.py` for one result:
empty `outputs` yields the sentinel row; otherwise the text is stripped and
handed to the `try` block, whose exception (if any) is caught and turned
into the parse-error row. -/
def row (jl : String → Except String Py) (out : RequestOutput) : Row :=
  match out.outputs with
  | [] => ⟨"", .none, .none, .none, .none, .none, .str "LLM returned empty output"⟩
  | o :: _ =>
    let text := pyStrip o.text
    match tryBlock jl text with
    | .ok (i, c, d, a, n, r) => ⟨text, i, c, d, a, n, r⟩
    | .error e =>
      ⟨text, .none, .none, .none, .none, .none,
        .str ("JSON parse error: " ++ e)⟩

/-- The seven accumulating output lists of `rubric_0_shot.py`. -/
structure OutLists where
  raws : List String
  indiv : List Py
  coll : List Py
  deliber : List Py
  alignc : List Py
  noneOf : List Py
  reasons : List Py

/-- One loop iteration appends one value to each of the seven lists. -/
def push (ls : OutLists) (r : Row) : OutLists :=
  ⟨ls.raws ++ [r.raw], ls.indiv ++ [r.indiv], ls.coll ++ [r.coll],
   ls.deliber ++ [r.deliber], ls.alignc ++ [r.alignc],
   ls.noneOf ++ [r.noneOf], ls.reasons ++ [r.reason]⟩

/-- The collection loop over all results, starting from empty lists. -/
def collect (jl : String → Except String Py) (outs : List RequestOutput) : OutLists :=
  outs.foldl (fun a o => push a (row jl o)) ⟨[], [], [], [], [], [], []⟩

/-- The seven column assignments of `rubric_0_shot.py`
(`df["voice_label_raw_json"] = ...` through `df["reason"] = ...`),
in source order. -/
def finishTable (df : Table) (ls : OutLists) : Table :=
  ((((((df.setCol "voice_label_raw_json" (ls.raws.map Py.str)).setCol
    "individual_voice" ls.indiv).setCol
    "collective_voice" ls.coll).setCol
    "internal_deliberation" ls.deliber).setCol
    "align_with_company" ls.alignc).setCol
    "none_of_the_above" ls.noneOf).setCol
    "reason" ls.reasons

/-- Function `main` of `rubric_0_shot.py`, parameterised by the external `json.loads`
and the external batch generation call.  The returned table is the one
passed to `to_csv`. -/
def main (jl : String → Except String Py)
    (generate : List String → List RequestOutput) (df : Table) :
    Except PyError Table :=
  if TEXT_COLUMN ∈ df.names then
    match buildPrompts buildPrompt (extractComments df) with
    | .error e => .error e
    | .ok prompts => .ok (finishTable df (collect jl (generate prompts)))
  else
    .error (.valueError (colErrMsg df))

end Rubric0Shot

namespace RubricManyShots

/-- The fixed instruction template of `rubric_many_shots.py` (verbatim). -/
def SYSTEM_INSTRUCTIONS : String := "\nYou are analyzing comments written by Stack Exchange users during the 2023 moderation strike related to the platform-wide AI content moderation policy and data dump issues.\n\nEach comment expresses the author\x27s perspective on the strike.\n\nYou will classify the comments into five categories:\n\n\n**Collective Voice**\n\nTo determine if a Stack Exchange comment expresses Collective Voice, first check whether the comment is relevant to the 2023 SE moderation strike or strike-related events; if not, we say Collective Voice is false.\nIf it is relevant to the strike, check whether the author uses collective pronouns such as \u201cwe,\u201d \u201cus,\u201d \u201cour,\u201d \u201cthe moderators,\u201d \u201cthe community,\u201d or \u201cour users\u201d. Comments that use collective pronouns usually express a collective stance by showing evidence of shared goals, mutual care, frustrations, or coordinated actions\u2014such as organizing, signing petitions, or condemning the company as a group.\n\nIf the comment uses collective pronouns and falls into any of the categories mentioned above, we should classify it as Collective Voice.\n\nSometimes, even when the comment uses collective pronouns, it may not directly reflect shared goals, mutual care, frustrations, or coordinated actions. In this case, we should check for arguments against or critiques of the company\u2019s position from the community\x27s perspective, such as defending moderators or referencing \u201cthe community\u201d in opposition to the company\x27s actions. If the comment does not meet any of these conditions and is only neutral or individually focused, \u201cCollective Voice\u201d is false.\n\n\nIf collective pronouns are not used, comments that primarily share strike-related resources (e.g., links, lists, or updates) are also considered as Collective Voice.\n\n\n\n**Individual Voice**\n\nTo determine if a Stack Exchange comment expresses Individual Voice, first check whether the comment is relevant to the moderator strike or strike-related events; if not, we say \u201cIndividual Voice\u201d is false.\nIf it is relevant, check whether the comment focuses on the author\u2019s personal experience, judgment, or opinion rather than from a collective perspective.\n\n\nComments that emphasize individual perspectives, typically using first-person pronouns such as \u201cI,\u201d \u201cme,\u201d or \u201cmy,\u201d without referencing the broader community\u2019s stance, may be a signal for Individual Voice.\nNext, examine whether the comment conveys personal reasoning, decisions, or emotions to support or respond to the strike. For instance, statements such as \u201cI decided to stop moderating,\u201d or \u201cI personally feel conflicted.\u201d\nThese expressions indicate personal stance rather than group representation. If the comment lacks personal perspective, does not mention individual reasoning, we say \u201cIndividual Voice\u201d is false.\n\n\n**Internal Deliberation**\n\n\nTo determine if a Stack Exchange comment is Internal Deliberation, first check whether the comment is relevant to clarifying, questioning, or debating the reasoning behind the strike. For example, explaining why moderators organized it, and discussing the validity and implications of the strike in broader governance terms. If it falls under these categories, we say \u201cInternal Deliberation\u201d is true. The key indicator here is that the author is analyzing, reflecting on, or reasoning through the community\u2019s internal conflicts or decision-making processes, rather than taking a clear stance for or against the strike.\nIf the comment is not related to the strike, but touches base on past governance structures, moderation policies, interpersonal conflicts, or general trust concerns(e.g., Monica Incident), we still say \u201cInternal Deliberation\u201d is true.\nIf the comment neither deliberates over governance issues nor relates current events to past community-company tensions, we say \u201cInternal Deliberation\u201d is false.\n\n\n**Align with Company**\n\nTo determine if a Stack Exchange comment expresses Align with the Company, first ask whether the comment is relevant to the moderator strike or strike-related events; if not, \u201cAlign With Company\u201d is false.\nIf it is relevant, check whether the comment explicitly or implicitly expresses agreement with, trust in, or support for Stack Exchange Inc.\u2019s decisions or policies related to the strike. (e.g., \u201cI am fully against this strike.)\nIf the comment falls under these categories, we say \u201cAlign with Company\u201d is true.\n\nThe key indicator is that the author\u2019s stance supports the company\u2019s position rather than aligning with community dissent or collective protest. If the comment only expresses neutrality or critiques the company instead, we say \u201cAlign With Company\u201d is false.\n\n\n**None of the above**\n\nIf the comment does not fall under any of the above categories, we say \u201cNone of the above\u201d is true.\n\n\n### OUTPUT FORMAT\n\nRepresent your judgment as a single JSON object that matches this schema:\n\n\x7b\n  \"individual_voice\": true/false,\n  \"collective_voice\": true/false,\n  \"internal_deliberation\": true/false,\n  \"align_with_company\": true/false,\n  \"none_of_the_above\": true/false,\n  \"reason\": \"Short explanation (1\u20132 sentences) for why you made this classification.\"\n\x7d\n\nDo NOT explain your steps or thoughts. Your response must ONLY be the JSON object.\n\n**Example 1**\n\nComment: \"As a former moderator here, I\x27m saddened to see that the SE corporation still isn\x27t really listening to the users who should be trusted the most.  The vast majority of the moderators I interacted with (or even watched work) are incredibly talented and intelligent people who care intensely about the community they curate.\"\n\nResponse: \x7b\"Individual Voice\": false, \"Collective Voice\": true, \"Internal Deliberation\": false, \"Align With Company\": false,  \"None of the above\": false,\n\n           \"Reason\": \"The author speaks from the moderators\u2019 and users\u2019 perspective and expresses frustration toward the company for not listening to the community.\"\x7d\n\n**Example 2**\n\nComment: \"As a former moderator here, I\x27m saddened to see that the SE corporation still isn\x27t really listening to the users who should be trusted the most.  The vast majority of the moderators I interacted (or even watched work) are incredibly talented and intelligent people who care intensely about the community they curate.\"\n\nResponse: \x7b\"Individual Voice\": false, \"Collective Voice\": true, \"Internal Deliberation\": false, \"Align With Company\": false,  \"None of the above\": false,\n\n           \"Reason\": \"The author speaks from the moderators\u2019 and users\u2019 perspective and expresses frustration toward the company for not listening to the community.\"\x7d\n\n\n**Example 3**\n\nComment: \"I haven\x27t read everything on this page. Maybe I\x27m missing something, but is there any evidence that any of this actually happened? As far as I can see, there isn\x27t a link to even one AI - generated answer, let alone 10,000. What am I missing?\"\n\nResponse: \x7b\"Individual Voice\": false, \"Collective Voice\": false, \"Internal Deliberation\": true, \"Align With Company\": false,  \"None of the above\": false,\n\n           \"Reason\": \"This comment fits Internal Deliberation because the author is questioning evidence and trying to clarify factual claims without taking a stance for or against either side.\"\x7d\n\n\n\n**Example 4**\n\nComment: \"From a longtime SO/SE user: I do not support this strike.\"\n\nResponse: \x7b\"Individual Voice\": false, \"Collective Voice\": false, \"Internal Deliberation\": false, \"Align With Company\": true,  \"None of the above\": false,\n\n           \"Reason\": \"This comment directly expressed the author\x27s disagreement with the community.\"\x7d\n\n\n\nNow it\u2019s your turn. Classify the following Stack Exchange post according to the definitions above.\n\n"

/-- The few-shot prompt for one comment cell:
`SYSTEM_INSTRUCTIONS + "\n\nComment:\n" + c + "\n\nLabel:"`;
a non-string cell raises the Python concatenation `TypeError`. -/
def buildPrompt (c : Py) : Except PyError String :=
  match c with
  | .str s =>
    .ok (SYSTEM_INSTRUCTIONS ++ "\n\nComment:\n" ++ s ++ "\n\nLabel:")
  | v =>
    .error (.typeError ("can only concatenate str (not \"" ++ v.typeName ++
      "\") to str"))

/-- The label appended for one result by `rubric_many_shots.py`: the fixed
error marker on empty `outputs`, otherwise the stripped generated text, with
no parsing of any kind. -/
def labelOf (out : RequestOutput) : String :=
  match out.outputs with
  | [] => "ERROR:EMPTY_OUTPUT"
  | o :: _ => pyStrip o.text

/-- The collection loop of `rubric_many_shots.py`: one label per result. -/
def collect (outs : List RequestOutput) : List String :=
  outs.foldl (fun acc o => acc ++ [labelOf o]) []

/-- Function `main` of `rubric_many_shots.py`, parameterised by the external batch
generation call.  The returned table is the one passed to `to_csv`. -/
def main (generate : List String → List RequestOutput) (df : Table) :
    Except PyError Table :=
  if TEXT_COLUMN ∈ df.names then
    match buildPrompts buildPrompt (extractComments df) with
    | .error e => .error e
    | .ok prompts =>
      .ok (df.setCol "voice_label" ((collect (generate prompts)).map Py.str))
  else
    .error (.valueError (colErrMsg df))

end RubricManyShots

/-! ### Concrete instantiations used by closed theorems

Stub external services and small concrete tables, used to evaluate the
embedded scripts on explicit inputs. -/

/-- A stub `json.loads` that fails on every input. -/
def jlStub : String → Except String Py :=
  fun _ => .error "Expecting value: line 1 column 1 (char 0)"

/-- A stub `json.loads` returning a non-object JSON value for the text `3`. -/
def jlNonObj : String → Except String Py :=
  fun s => if s = "3" then .ok (Py.int 3) else .error "stub"

/-- A stub `json.loads` returning the full six-field object for the text
`J`. -/
def jlSchema : String → Except String Py :=
  fun s =>
    if s = "J" then
      .ok (Py.dict
        [("individual_voice", .bool true), ("collective_voice", .bool false),
         ("internal_deliberation", .bool true), ("align_with_company", .bool false),
         ("none_of_the_above", .bool false), ("reason", .str "ok")])
    else .error "stub"

/-- A stub `json.loads` returning an empty JSON object for the text `O`. -/
def jlEmptyObj : String → Except String Py :=
  fun s => if s = "O" then .ok (Py.dict []) else .error "stub"

/-- A stub service returning, for every prompt, a result with no generated
content. -/
def genEmptyOut : List String → List RequestOutput :=
  fun ps => ps.map (fun _ => ⟨[]⟩)

/-- A stub service returning the fixed text `s` for every prompt. -/
def genFixed (s : String) : List String → List RequestOutput :=
  fun ps => ps.map (fun _ => ⟨[⟨s⟩]⟩)

/-- A two-column, one-row input table containing the text column. -/
def dfA : Table := ⟨[("body_text", [Py.str "hello"]), ("id", [Py.int 7])]⟩

/-- A one-column input table missing the text column. -/
def dfB : Table := ⟨[("other", [Py.str "x"])]⟩

/-- An input table that already contains a column named `reason`, colliding
with a result column of the zero-shot script. -/
def dfC : Table := ⟨[("body_text", [Py.str "hi"]), ("reason", [Py.str "x"])]⟩

/-- A one-column table whose text column contains a missing value. -/
def dfN : Table := ⟨[("body_text", [Py.str "a", Py.none])]⟩

/-- The table written by the zero-shot script on `dfA` with the stub
external services. -/
def tA : Table := (Rubric0Shot.main jlStub genEmptyOut dfA).toOption.getD ⟨[]⟩

/-- The table written by the zero-shot script on `dfC` with the stub
external services. -/
def tC : Table := (Rubric0Shot.main jlStub genEmptyOut dfC).toOption.getD ⟨[]⟩

/-- A service result carrying the non-JSON-object text `3`. -/
def outNonObj : RequestOutput := ⟨[⟨"3"⟩]⟩

/-- A service result carrying the text `J` (parsed by `jlSchema`). -/
def outSchema : RequestOutput := ⟨[⟨"J"⟩]⟩

/-- A service result carrying the text `O` (parsed by `jlEmptyObj`). -/
def outEmptyObj : RequestOutput := ⟨[⟨"O"⟩]⟩

/-- A service result carrying unparseable text. -/
def outBad : RequestOutput := ⟨[⟨"not json"⟩]⟩

/-- A service result with no generated content. -/
def outEmpty : RequestOutput := ⟨[]⟩

/-- A service result whose text has surrounding whitespace. -/
def outWs : RequestOutput := ⟨[⟨"  yes\n"⟩]⟩

/-- The table written by the few-shot script on `dfA` with the stub
external services. -/
def tAM : Table := (RubricManyShots.main genEmptyOut dfA).toOption.getD ⟨[]⟩

/-- The table written by the few-shot script on `dfA` with a service
echoing a fixed string. -/
def tFix : Table :=
  (RubricManyShots.main (genFixed "  yes\n") dfA).toOption.getD ⟨[]⟩

/-! ### Helper lemmas -/

theorem fillna_ne_none (v : Py) : fillna v ≠ Py.none := by
  cases v <;> simp [fillna]

theorem fillna_eq_ite (v : Py) : fillna v = if v = Py.none then Py.str "" else v := by
  cases v <;> simp [fillna]

theorem buildPrompts_ok_length {f : Py → Except PyError String} :
    ∀ {cs : List Py} {ps : List String}, buildPrompts f cs = .ok ps →
      ps.length = cs.length := by
  intro cs
  induction cs with
  | nil => intro ps h; simp [buildPrompts] at h; simp [← h]
  | cons c cs ih =>
    intro ps h
    simp only [buildPrompts] at h
    cases hc : f c with
    | error e => rw [hc] at h; exact absurd h (by simp)
    | ok p =>
      rw [hc] at h
      cases hr : buildPrompts f cs with
      | error e => rw [hr] at h; exact absurd h (by simp)
      | ok qs =>
        rw [hr] at h
        simp only [Except.ok.injEq] at h
        subst h
        simp [ih hr]

theorem buildPrompts_error_mem {f : Py → Except PyError String} :
    ∀ {cs : List Py} {e : PyError}, buildPrompts f cs = .error e →
      ∃ c ∈ cs, f c = .error e := by
  intro cs
  induction cs with
  | nil => intro e h; simp [buildPrompts] at h
  | cons c cs ih =>
    intro e h
    simp only [buildPrompts] at h
    cases hc : f c with
    | error e2 =>
      rw [hc] at h
      simp only [Except.error.injEq] at h
      subst h
      exact ⟨c, by simp, hc⟩
    | ok p =>
      rw [hc] at h
      cases hr : buildPrompts f cs with
      | error e2 =>
        rw [hr] at h
        simp only [Except.error.injEq] at h
        subst h
        obtain ⟨c2, hc2, hfc2⟩ := ih hr
        exact ⟨c2, by simp [hc2], hfc2⟩
      | ok qs => rw [hr] at h; exact absurd h (by simp)

theorem buildPrompts_map_str {f : Py → Except PyError String} {g : String → String}
    (hf : ∀ s, f (Py.str s) = .ok (g s)) :
    ∀ cs : List String, buildPrompts f (cs.map Py.str) = .ok (cs.map g) := by
  intro cs
  induction cs with
  | nil => simp [buildPrompts]
  | cons c cs ih => simp [buildPrompts, hf, ih]

theorem dictLookup_mem {α : Type} :
    ∀ {l : List (String × α)} {n : String}, n ∈ l.map Prod.fst →
      ∃ v, dictLookup n l = some v ∧ (n, v) ∈ l := by
  intro l
  induction l with
  | nil => intro n h; simp at h
  | cons c rest ih =>
    intro n h
    by_cases hc : c.1 = n
    · refine ⟨c.2, by simp [dictLookup, hc], ?_⟩
      rw [← hc]
      exact List.mem_cons_self _ _
    · have hn : n ∈ rest.map Prod.fst := by
        simp only [List.map_cons, List.mem_cons] at h
        exact h.resolve_left (fun hh => hc hh.symm)
      obtain ⟨v, hv, hm⟩ := ih hn
      exact ⟨v, by simpa [dictLookup, hc] using hv, by right; exact hm⟩

theorem dictLookup_replace {α : Type} {m n : String} {vals : α} (h : m ≠ n) :
    ∀ l : List (String × α),
      dictLookup n (l.map fun c => if c.1 = m then (m, vals) else c) =
        dictLookup n l := by
  intro l
  induction l with
  | nil => simp [dictLookup]
  | cons c rest ih =>
    obtain ⟨k, v⟩ := c
    simp only [List.map_cons]
    by_cases hc : k = m
    · subst hc
      rw [if_pos rfl]
      simp [dictLookup, if_neg h, ih]
    · rw [if_neg (by simpa using hc)]
      simp [dictLookup, ih]

theorem dictLookup_append_one {α : Type} {m n : String} {vals : α} (h : m ≠ n) :
    ∀ l : List (String × α),
      dictLookup n (l ++ [(m, vals)]) = dictLookup n l := by
  intro l
  induction l with
  | nil => simp [dictLookup, h]
  | cons c rest ih =>
    obtain ⟨k, v⟩ := c
    by_cases hc : k = n <;> simp [dictLookup, hc, ih]

theorem Table.cols_ne_nil_of_mem {df : Table} {n : String} (h : n ∈ df.names) :
    df.cols ≠ [] := by
  intro hc
  rw [Table.names, hc] at h
  simp at h

theorem Table.col_length_of_mem {df : Table} {n : String} (hwf : df.wf)
    (h : n ∈ df.names) : (df.col n).length = df.nrows := by
  obtain ⟨v, hv, hm⟩ := dictLookup_mem (by simpa [Table.names] using h)
  rw [Table.col, hv]
  exact hwf (n, v) hm

theorem Table.setCol_col_ne {df : Table} {m n : String} {vals : List Py}
    (h : m ≠ n) : (df.setCol m vals).col n = df.col n := by
  unfold Table.setCol
  split
  · simp only [Table.col]
    rw [dictLookup_replace h]
  · simp only [Table.col]
    rw [dictLookup_append_one h]

theorem Table.setCol_pres {df : Table} {n : String} {vals : List Py}
    (hwf : df.wf) (hne : df.cols ≠ []) (hlen : vals.length = df.nrows) :
    (df.setCol n vals).wf ∧ (df.setCol n vals).nrows = df.nrows ∧
      (df.setCol n vals).cols ≠ [] := by
  obtain ⟨cols⟩ := df
  cases cols with
  | nil => exact absurd rfl hne
  | cons c rest =>
    unfold Table.setCol
    split
    · -- the column name already exists: every matching column is replaced
      have hnr : Table.nrows
          ⟨(c :: rest).map (fun x => if x.1 = n then (n, vals) else x)⟩ =
          Table.nrows ⟨c :: rest⟩ := by
        simp only [List.map_cons]
        by_cases hc : c.1 = n
        · rw [if_pos hc]
          exact hlen
        · rw [if_neg hc]
          rfl
      refine ⟨?_, hnr, by simp⟩
      intro x hx
      simp only [List.mem_map] at hx
      obtain ⟨y, hy, hxy⟩ := hx
      rw [hnr]
      by_cases hc : y.1 = n
      · rw [if_pos hc] at hxy
        rw [← hxy]
        exact hlen
      · rw [if_neg hc] at hxy
        rw [← hxy]
        exact hwf y hy
    · -- new column appended at the end
      have hnr : Table.nrows ⟨(c :: rest) ++ [(n, vals)]⟩ =
          Table.nrows ⟨c :: rest⟩ := rfl
      refine ⟨?_, hnr, by simp⟩
      intro x hx
      simp only [List.mem_append, List.mem_singleton] at hx
      rw [hnr]
      rcases hx with hx | hx
      · exact hwf x hx
      · rw [hx]
        exact hlen

theorem tryBlock_error {jl : String → Except String Py} {text : String}
    {e : String} (h : jl text = .error e) :
    Rubric0Shot.tryBlock jl text = .error e := by
  unfold Rubric0Shot.tryBlock
  rw [h]

theorem tryBlock_dict {jl : String → Except String Py} {text : String}
    {l : List (String × Py)} (h : jl text = .ok (Py.dict l)) :
    Rubric0Shot.tryBlock jl text =
      .ok ((dictLookup "individual_voice" l).getD .none,
        (dictLookup "collective_voice" l).getD .none,
        (dictLookup "internal_deliberation" l).getD .none,
        (dictLookup "align_with_company" l).getD .none,
        (dictLookup "none_of_the_above" l).getD .none,
        (dictLookup "reason" l).getD (Py.str "")) := by
  unfold Rubric0Shot.tryBlock
  rw [h]
  rfl

theorem tryBlock_nondict {jl : String → Except String Py} {text : String}
    {v : Py} (h : jl text = .ok v) (hv : ∀ l, v ≠ Py.dict l) :
    Rubric0Shot.tryBlock jl text = .error (noAttrMsg v) := by
  unfold Rubric0Shot.tryBlock
  rw [h]
  cases v with
  | dict l => exact absurd rfl (hv l)
  | none => rfl
  | bool b => rfl
  | int n => rfl
  | str s => rfl
  | list l => rfl

theorem row_of_empty {jl : String → Except String Py} {out : RequestOutput}
    (h : out.outputs = []) :
    Rubric0Shot.row jl out =
      ⟨"", .none, .none, .none, .none, .none,
        .str "LLM returned empty output"⟩ := by
  unfold Rubric0Shot.row
  rw [h]

theorem row_of_parse_error {jl : String → Except String Py}
    {out : RequestOutput} {o : CompletionOutput} {rest : List CompletionOutput}
    {e : String} (h : out.outputs = o :: rest)
    (he : jl (pyStrip o.text) = .error e) :
    Rubric0Shot.row jl out =
      ⟨pyStrip o.text, .none, .none, .none, .none, .none,
        .str ("JSON parse error: " ++ e)⟩ := by
  unfold Rubric0Shot.row
  rw [h]
  show (match Rubric0Shot.tryBlock jl (pyStrip o.text) with
    | .ok (i, c, d, a, n, r) => Rubric0Shot.Row.mk (pyStrip o.text) i c d a n r
    | .error e =>
      ⟨pyStrip o.text, .none, .none, .none, .none, .none,
        .str ("JSON parse error: " ++ e)⟩) = _
  rw [tryBlock_error he]

theorem row_of_dict {jl : String → Except String Py}
    {out : RequestOutput} {o : CompletionOutput} {rest : List CompletionOutput}
    {l : List (String × Py)} (h : out.outputs = o :: rest)
    (hd : jl (pyStrip o.text) = .ok (Py.dict l)) :
    Rubric0Shot.row jl out =
      ⟨pyStrip o.text,
        (dictLookup "individual_voice" l).getD .none,
        (dictLookup "collective_voice" l).getD .none,
        (dictLookup "internal_deliberation" l).getD .none,
        (dictLookup "align_with_company" l).getD .none,
        (dictLookup "none_of_the_above" l).getD .none,
        (dictLookup "reason" l).getD (Py.str "")⟩ := by
  unfold Rubric0Shot.row
  rw [h]
  show (match Rubric0Shot.tryBlock jl (pyStrip o.text) with
    | .ok (i, c, d, a, n, r) => Rubric0Shot.Row.mk (pyStrip o.text) i c d a n r
    | .error e =>
      ⟨pyStrip o.text, .none, .none, .none, .none, .none,
        .str ("JSON parse error: " ++ e)⟩) = _
  rw [tryBlock_dict hd]

theorem collect_eq_zero (jl : String → Except String Py)
    (outs : List RequestOutput) :
    Rubric0Shot.collect jl outs =
      ⟨outs.map (fun o => (Rubric0Shot.row jl o).raw),
       outs.map (fun o => (Rubric0Shot.row jl o).indiv),
       outs.map (fun o => (Rubric0Shot.row jl o).coll),
       outs.map (fun o => (Rubric0Shot.row jl o).deliber),
       outs.map (fun o => (Rubric0Shot.row jl o).alignc),
       outs.map (fun o => (Rubric0Shot.row jl o).noneOf),
       outs.map (fun o => (Rubric0Shot.row jl o).reason)⟩ := by
  have hgo : ∀ (os : List RequestOutput) (ls : Rubric0Shot.OutLists),
      os.foldl (fun a o => Rubric0Shot.push a (Rubric0Shot.row jl o)) ls =
        ⟨ls.raws ++ os.map (fun o => (Rubric0Shot.row jl o).raw),
         ls.indiv ++ os.map (fun o => (Rubric0Shot.row jl o).indiv),
         ls.coll ++ os.map (fun o => (Rubric0Shot.row jl o).coll),
         ls.deliber ++ os.map (fun o => (Rubric0Shot.row jl o).deliber),
         ls.alignc ++ os.map (fun o => (Rubric0Shot.row jl o).alignc),
         ls.noneOf ++ os.map (fun o => (Rubric0Shot.row jl o).noneOf),
         ls.reasons ++ os.map (fun o => (Rubric0Shot.row jl o).reason)⟩ := by
    intro os
    induction os with
    | nil => intro ls; simp [Rubric0Shot.push]
    | cons o os ih =>
      intro ls
      rw [List.foldl_cons, ih]
      simp [Rubric0Shot.push, List.append_assoc]
  unfold Rubric0Shot.collect
  rw [hgo]
  simp

theorem collect_eq_many (outs : List RequestOutput) :
    RubricManyShots.collect outs = outs.map RubricManyShots.labelOf := by
  have hgo : ∀ (os : List RequestOutput) (acc : List String),
      os.foldl (fun a o => a ++ [RubricManyShots.labelOf o]) acc =
        acc ++ os.map RubricManyShots.labelOf := by
    intro os
    induction os with
    | nil => intro acc; simp
    | cons o os ih =>
      intro acc
      rw [List.foldl_cons, ih]
      simp
  unfold RubricManyShots.collect
  rw [hgo]
  simp

theorem labelOf_of_empty {out : RequestOutput} (h : out.outputs = []) :
    RubricManyShots.labelOf out = "ERROR:EMPTY_OUTPUT" := by
  unfold RubricManyShots.labelOf
  rw [h]

theorem labelOf_of_cons {out : RequestOutput} {o : CompletionOutput}
    {rest : List CompletionOutput} (h : out.outputs = o :: rest) :
    RubricManyShots.labelOf out = pyStrip o.text := by
  unfold RubricManyShots.labelOf
  rw [h]

theorem buildPrompt_error_zero {c : Py} {e : PyError}
    (h : Rubric0Shot.buildPrompt c = .error e) :
    ∃ s, e = PyError.typeError s := by
  cases c <;> simp [Rubric0Shot.buildPrompt] at h <;> exact ⟨_, h.symm⟩

theorem buildPrompt_error_many {c : Py} {e : PyError}
    (h : RubricManyShots.buildPrompt c = .error e) :
    ∃ s, e = PyError.typeError s := by
  cases c <;> simp [RubricManyShots.buildPrompt] at h <;> exact ⟨_, h.symm⟩

theorem main_zero_missing {jl : String → Except String Py}
    {gen : List String → List RequestOutput} {df : Table}
    (h : TEXT_COLUMN ∉ df.names) :
    Rubric0Shot.main jl gen df = .error (.valueError (colErrMsg df)) := by
  unfold Rubric0Shot.main
  rw [if_neg h]

theorem main_many_missing {gen : List String → List RequestOutput} {df : Table}
    (h : TEXT_COLUMN ∉ df.names) :
    RubricManyShots.main gen df = .error (.valueError (colErrMsg df)) := by
  unfold RubricManyShots.main
  rw [if_neg h]

theorem main_zero_no_valueError {jl : String → Except String Py}
    {gen : List String → List RequestOutput} {df : Table} {m : String}
    (hmem : TEXT_COLUMN ∈ df.names) :
    Rubric0Shot.main jl gen df ≠ .error (.valueError m) := by
  unfold Rubric0Shot.main
  rw [if_pos hmem]
  cases hbp : buildPrompts Rubric0Shot.buildPrompt (extractComments df) with
  | error e =>
    obtain ⟨c, _, hfc⟩ := buildPrompts_error_mem hbp
    obtain ⟨s, hs⟩ := buildPrompt_error_zero hfc
    subst hs
    simp
  | ok ps => simp

theorem main_many_no_valueError {gen : List String → List RequestOutput}
    {df : Table} {m : String} (hmem : TEXT_COLUMN ∈ df.names) :
    RubricManyShots.main gen df ≠ .error (.valueError m) := by
  unfold RubricManyShots.main
  rw [if_pos hmem]
  cases hbp : buildPrompts RubricManyShots.buildPrompt (extractComments df) with
  | error e =>
    obtain ⟨c, _, hfc⟩ := buildPrompts_error_mem hbp
    obtain ⟨s, hs⟩ := buildPrompt_error_many hfc
    subst hs
    simp
  | ok ps => simp

theorem main_zero_ok {jl : String → Except String Py}
    {gen : List String → List RequestOutput} {df : Table} {t : Table}
    (h : Rubric0Shot.main jl gen df = .ok t) :
    TEXT_COLUMN ∈ df.names ∧
      ∃ prompts,
        buildPrompts Rubric0Shot.buildPrompt (extractComments df) = .ok prompts ∧
        prompts.length = (extractComments df).length ∧
        t = Rubric0Shot.finishTable df (Rubric0Shot.collect jl (gen prompts)) := by
  unfold Rubric0Shot.main at h
  by_cases hmem : TEXT_COLUMN ∈ df.names
  · rw [if_pos hmem] at h
    cases hbp : buildPrompts Rubric0Shot.buildPrompt (extractComments df) with
    | error e => rw [hbp] at h; exact absurd h (by simp)
    | ok ps =>
      rw [hbp] at h
      simp only [Except.ok.injEq] at h
      exact ⟨hmem, ps, rfl, buildPrompts_ok_length hbp, h.symm⟩
  · rw [if_neg hmem] at h
    exact absurd h (by simp)

theorem main_many_ok {gen : List String → List RequestOutput} {df : Table}
    {t : Table} (h : RubricManyShots.main gen df = .ok t) :
    TEXT_COLUMN ∈ df.names ∧
      ∃ prompts,
        buildPrompts RubricManyShots.buildPrompt (extractComments df) = .ok prompts ∧
        prompts.length = (extractComments df).length ∧
        t = df.setCol "voice_label"
          ((RubricManyShots.collect (gen prompts)).map Py.str) := by
  unfold RubricManyShots.main at h
  by_cases hmem : TEXT_COLUMN ∈ df.names
  · rw [if_pos hmem] at h
    cases hbp : buildPrompts RubricManyShots.buildPrompt (extractComments df) with
    | error e => rw [hbp] at h; exact absurd h (by simp)
    | ok ps =>
      rw [hbp] at h
      simp only [Except.ok.injEq] at h
      exact ⟨hmem, ps, rfl, buildPrompts_ok_length hbp, h.symm⟩
  · rw [if_neg hmem] at h
    exact absurd h (by simp)

theorem finishTable_pres {df : Table} {ls : Rubric0Shot.OutLists}
    (hwf : df.wf) (hne : df.cols ≠ [])
    (h1 : ls.raws.length = df.nrows) (h2 : ls.indiv.length = df.nrows)
    (h3 : ls.coll.length = df.nrows) (h4 : ls.deliber.length = df.nrows)
    (h5 : ls.alignc.length = df.nrows) (h6 : ls.noneOf.length = df.nrows)
    (h7 : ls.reasons.length = df.nrows) :
    (Rubric0Shot.finishTable df ls).wf ∧
      (Rubric0Shot.finishTable df ls).nrows = df.nrows := by
  have s1 := @Table.setCol_pres df "voice_label_raw_json" (ls.raws.map Py.str)
    hwf hne (by simpa using h1)
  have s2 := @Table.setCol_pres _ "individual_voice" ls.indiv
    s1.1 s1.2.2 (by rw [s1.2.1]; exact h2)
  have s3 := @Table.setCol_pres _ "collective_voice" ls.coll
    s2.1 s2.2.2 (by rw [s2.2.1, s1.2.1]; exact h3)
  have s4 := @Table.setCol_pres _ "internal_deliberation" ls.deliber
    s3.1 s3.2.2 (by rw [s3.2.1, s2.2.1, s1.2.1]; exact h4)
  have s5 := @Table.setCol_pres _ "align_with_company" ls.alignc
    s4.1 s4.2.2 (by rw [s4.2.1, s3.2.1, s2.2.1, s1.2.1]; exact h5)
  have s6 := @Table.setCol_pres _ "none_of_the_above" ls.noneOf
    s5.1 s5.2.2 (by rw [s5.2.1, s4.2.1, s3.2.1, s2.2.1, s1.2.1]; exact h6)
  have s7 := @Table.setCol_pres _ "reason" ls.reasons
    s6.1 s6.2.2 (by rw [s6.2.1, s5.2.1, s4.2.1, s3.2.1, s2.2.1, s1.2.1]; exact h7)
  constructor
  · exact s7.1
  · show Table.nrows _ = df.nrows
    unfold Rubric0Shot.finishTable
    rw [s7.2.1, s6.2.1, s5.2.1, s4.2.1, s3.2.1, s2.2.1, s1.2.1]

theorem finishTable_col_ne {df : Table} {ls : Rubric0Shot.OutLists}
    {name : String}
    (h1 : name ≠ "voice_label_raw_json") (h2 : name ≠ "individual_voice")
    (h3 : name ≠ "collective_voice") (h4 : name ≠ "internal_deliberation")
    (h5 : name ≠ "align_with_company") (h6 : name ≠ "none_of_the_above")
    (h7 : name ≠ "reason") :
    (Rubric0Shot.finishTable df ls).col name = df.col name := by
  unfold Rubric0Shot.finishTable
  rw [Table.setCol_col_ne h7.symm, Table.setCol_col_ne h6.symm,
    Table.setCol_col_ne h5.symm, Table.setCol_col_ne h4.symm,
    Table.setCol_col_ne h3.symm, Table.setCol_col_ne h2.symm,
    Table.setCol_col_ne h1.symm]

theorem dictLookup_eq_none_of_not_mem {α : Type} {n : String} :
    ∀ {l : List (String × α)}, n ∉ l.map Prod.fst →
      dictLookup n l = Option.none := by
  intro l
  induction l with
  | nil => intro _; rfl
  | cons c rest ih =>
    intro h
    obtain ⟨k, v⟩ := c
    simp only [List.map_cons, List.mem_cons] at h
    push_neg at h
    simp only [dictLookup]
    rw [if_neg (show ¬(k = n) from fun hh => h.1 hh.symm)]
    exact ih h.2

theorem dictLookup_replace_self {α : Type} {n : String} {vals : α} :
    ∀ {l : List (String × α)}, n ∈ l.map Prod.fst →
      dictLookup n (l.map fun c => if c.1 = n then (n, vals) else c) =
        some vals := by
  intro l
  induction l with
  | nil => intro h; simp at h
  | cons c rest ih =>
    intro h
    obtain ⟨k, v⟩ := c
    simp only [List.map_cons]
    by_cases hc : k = n
    · subst hc
      rw [if_pos rfl]
      simp [dictLookup]
    · rw [if_neg (by simpa using hc)]
      simp only [dictLookup, if_neg hc]
      apply ih
      simp only [List.map_cons, List.mem_cons] at h
      exact h.resolve_left (fun hh => hc hh.symm)

theorem dictLookup_append_self {α : Type} {n : String} {vals : α} :
    ∀ {l : List (String × α)}, dictLookup n l = Option.none →
      dictLookup n (l ++ [(n, vals)]) = some vals := by
  intro l
  induction l with
  | nil => intro _; simp [dictLookup]
  | cons c rest ih =>
    intro h
    obtain ⟨k, v⟩ := c
    simp only [dictLookup] at h
    by_cases hc : k = n
    · rw [if_pos hc] at h
      exact absurd h (by simp)
    · rw [if_neg hc] at h
      simp only [List.cons_append, dictLookup, if_neg hc]
      exact ih h

theorem Table.setCol_col_self {df : Table} {n : String} {vals : List Py} :
    (df.setCol n vals).col n = vals := by
  unfold Table.setCol
  split
  · rename_i hmem
    simp only [Table.col]
    rw [dictLookup_replace_self (by simpa [Table.names] using hmem)]
    rfl
  · rename_i hmem
    simp only [Table.col]
    rw [dictLookup_append_self
      (dictLookup_eq_none_of_not_mem (by simpa [Table.names] using hmem))]
    rfl

/-! ### Claim theorems -/

/-- C6: For every row text (including the empty string), the prompt built
for that row equals exactly the fixed instruction template concatenated
with the delimiter, the row text and the closing directive
(`"\n\nComment:\n" + text + "\n\nReturn ONLY the JSON object."` in the
zero-shot variant, `"\n\nComment:\n" + text + "\n\nLabel:"` in the few-shot
variant); no validation, truncation or escaping is applied to the row text,
prompt building never fails on string input, and over a whole list of
string comments the prompt list is exactly the elementwise concatenation. -/
theorem c6_prompt_concatenation :
    (∀ s : String, Rubric0Shot.buildPrompt (Py.str s) =
      .ok (Rubric0Shot.SYSTEM_INSTRUCTIONS ++ "\n\nComment:\n" ++ s ++
        "\n\nReturn ONLY the JSON object.")) ∧
    (∀ s : String, RubricManyShots.buildPrompt (Py.str s) =
      .ok (RubricManyShots.SYSTEM_INSTRUCTIONS ++ "\n\nComment:\n" ++ s ++
        "\n\nLabel:")) ∧
    (∀ cs : List String,
      buildPrompts Rubric0Shot.buildPrompt (cs.map Py.str) =
        .ok (cs.map fun s => Rubric0Shot.SYSTEM_INSTRUCTIONS ++
          "\n\nComment:\n" ++ s ++ "\n\nReturn ONLY the JSON object.")) ∧
    (∀ cs : List String,
      buildPrompts RubricManyShots.buildPrompt (cs.map Py.str) =
        .ok (cs.map fun s => RubricManyShots.SYSTEM_INSTRUCTIONS ++
          "\n\nComment:\n" ++ s ++ "\n\nLabel:")) := by
  refine ⟨fun s => rfl, fun s => rfl, ?_, ?_⟩
  · exact buildPrompts_map_str (fun s => rfl)
  · exact buildPrompts_map_str (fun s => rfl)

/-- C7: For every well-formed input table containing the configured text
column, the loader extracts exactly that column as the comment list: one
entry per input row, no entry is null, and elementwise the value is the
original cell unless the cell was missing, in which case it is the empty
string. -/
theorem c7_loader_comments (df : Table) (hwf : df.wf)
    (hmem : TEXT_COLUMN ∈ df.names) :
    (extractComments df).length = df.nrows ∧
    (∀ v ∈ extractComments df, v ≠ Py.none) ∧
    extractComments df =
      (df.col TEXT_COLUMN).map
        (fun v => if v = Py.none then Py.str "" else v) := by
  refine ⟨?_, ?_, ?_⟩
  · rw [extractComments, List.length_map]
    exact Table.col_length_of_mem hwf hmem
  · intro v hv
    rw [extractComments] at hv
    obtain ⟨w, _, hw⟩ := List.mem_map.mp hv
    rw [← hw]
    exact fillna_ne_none w
  · rw [extractComments]
    have hfun : fillna = fun v => if v = Py.none then Py.str "" else v :=
      funext fillna_eq_ite
    rw [hfun]

/-- Witness for C7 at the concrete table `dfN`, whose text column holds one
string and one missing value. -/
theorem c7_loader_comments_witness :
    (extractComments dfN).length = dfN.nrows ∧
    (∀ v ∈ extractComments dfN, v ≠ Py.none) ∧
    extractComments dfN =
      (dfN.col TEXT_COLUMN).map
        (fun v => if v = Py.none then Py.str "" else v) :=
  c7_loader_comments dfN
    (by show ∀ c ∈ dfN.cols, c.2.length = dfN.nrows; decide)
    (by decide)

/-- C2: For every input table lacking the configured text column, both
scripts stop with the `ValueError` naming the missing column
(`colErrMsg` spells `TEXT_COLUMN` into the message), and the result does
not depend on the parser or on the generation service — no prompt is built
and no inference call is made; for every table that has the column,
neither script ever raises a `ValueError`. -/
theorem c2_missing_column_fatal :
    (∀ df : Table, TEXT_COLUMN ∉ df.names →
      (∀ (jl : String → Except String Py)
         (gen : List String → List RequestOutput),
        Rubric0Shot.main jl gen df = .error (.valueError (colErrMsg df))) ∧
      (∀ gen : List String → List RequestOutput,
        RubricManyShots.main gen df = .error (.valueError (colErrMsg df)))) ∧
    (∀ df : Table, TEXT_COLUMN ∈ df.names →
      (∀ (jl : String → Except String Py)
         (gen : List String → List RequestOutput) (m : String),
        Rubric0Shot.main jl gen df ≠ .error (.valueError m)) ∧
      (∀ (gen : List String → List RequestOutput) (m : String),
        RubricManyShots.main gen df ≠ .error (.valueError m))) := by
  constructor
  · intro df h
    exact ⟨fun jl gen => main_zero_missing h, fun gen => main_many_missing h⟩
  · intro df h
    exact ⟨fun jl gen m => main_zero_no_valueError h,
      fun gen m => main_many_no_valueError h⟩

/-- Witness for C2 at the concrete tables `dfB` (missing column) and `dfA`
(column present). -/
theorem c2_missing_column_fatal_witness :
    Rubric0Shot.main jlStub genEmptyOut dfB =
      .error (.valueError (colErrMsg dfB)) ∧
    RubricManyShots.main genEmptyOut dfB =
      .error (.valueError (colErrMsg dfB)) ∧
    Rubric0Shot.main jlStub genEmptyOut dfA ≠ .error (.valueError "x") ∧
    RubricManyShots.main genEmptyOut dfA ≠ .error (.valueError "x") := by
  refine ⟨?_, ?_, ?_, ?_⟩
  · exact (c2_missing_column_fatal.1 dfB (by decide)).1 jlStub genEmptyOut
  · exact (c2_missing_column_fatal.1 dfB (by decide)).2 genEmptyOut
  · exact (c2_missing_column_fatal.2 dfA (by decide)).1 jlStub genEmptyOut "x"
  · exact (c2_missing_column_fatal.2 dfA (by decide)).2 genEmptyOut "x"

/-- C3: In the zero-shot variant, for every row whose generated text fails
JSON parsing, all five label outputs for that row are null (`Py.none`), the
reason output embeds the parse-error description
(`"JSON parse error: " ++ e`), and the exception never propagates past the
per-row boundary: however the failing result is positioned in the batch,
the collector still produces exactly one entry per result. -/
theorem c3_parse_failure_row (jl : String → Except String Py)
    (out : RequestOutput) (o : CompletionOutput)
    (rest : List CompletionOutput) (e : String)
    (h : out.outputs = o :: rest)
    (he : jl (pyStrip o.text) = .error e) :
    Rubric0Shot.row jl out =
      ⟨pyStrip o.text, .none, .none, .none, .none, .none,
        .str ("JSON parse error: " ++ e)⟩ ∧
    (∀ pre post : List RequestOutput,
      (Rubric0Shot.collect jl (pre ++ out :: post)).raws.length =
          pre.length + 1 + post.length ∧
      (Rubric0Shot.collect jl (pre ++ out :: post)).reasons.length =
          pre.length + 1 + post.length) := by
  refine ⟨row_of_parse_error h he, ?_⟩
  intro pre post
  rw [collect_eq_zero]
  constructor
  · simp only [List.length_map, List.length_append, List.length_cons]
    omega
  · simp only [List.length_map, List.length_append, List.length_cons]
    omega

/-- Witness for C3: the stub parser fails on `outBad`, yielding null labels
and the embedded parse error. -/
theorem c3_parse_failure_row_witness :
    Rubric0Shot.row jlStub outBad =
      ⟨"not json", .none, .none, .none, .none, .none,
        .str "JSON parse error: Expecting value: line 1 column 1 (char 0)"⟩ :=
  (c3_parse_failure_row jlStub outBad ⟨"not json"⟩ []
    "Expecting value: line 1 column 1 (char 0)" rfl rfl).1

/-- C4: For every row whose result contains no generated content, neither
script raises: the zero-shot variant records all five labels as null with
the fixed sentinel reason `"LLM returned empty output"` (and an empty raw
text), the few-shot variant records the fixed sentinel label
`"ERROR:EMPTY_OUTPUT"`, and in both variants processing continues —
wherever the empty result sits in the batch, the collectors still produce
exactly one entry per result. -/
theorem c4_empty_output_row (jl : String → Except String Py)
    (out : RequestOutput) (h : out.outputs = []) :
    Rubric0Shot.row jl out =
      ⟨"", .none, .none, .none, .none, .none,
        .str "LLM returned empty output"⟩ ∧
    RubricManyShots.labelOf out = "ERROR:EMPTY_OUTPUT" ∧
    (∀ pre post : List RequestOutput,
      (RubricManyShots.collect (pre ++ out :: post)).length =
          pre.length + 1 + post.length ∧
      (Rubric0Shot.collect jl (pre ++ out :: post)).reasons.length =
          pre.length + 1 + post.length) := by
  refine ⟨row_of_empty h, labelOf_of_empty h, ?_⟩
  intro pre post
  constructor
  · rw [collect_eq_many]
    simp only [List.length_map, List.length_append, List.length_cons]
    omega
  · rw [collect_eq_zero]
    simp only [List.length_map, List.length_append, List.length_cons]
    omega

/-- Witness for C4 at the concrete empty result `outEmpty`. -/
theorem c4_empty_output_row_witness :
    Rubric0Shot.row jlStub outEmpty =
      ⟨"", .none, .none, .none, .none, .none,
        .str "LLM returned empty output"⟩ ∧
    RubricManyShots.labelOf outEmpty = "ERROR:EMPTY_OUTPUT" :=
  ⟨(c4_empty_output_row jlStub outEmpty rfl).1,
   (c4_empty_output_row jlStub outEmpty rfl).2.1⟩

/-- C5: In the zero-shot variant, for every row where generation succeeds
and the generated text parses as the six-field object the schema forces
(five boolean fields plus a string reason), the five label fields written
for that row are exactly those booleans (in particular never null) and the
reason field is that string (non-null). -/
theorem c5_schema_fields_boolean (jl : String → Except String Py)
    (out : RequestOutput) (o : CompletionOutput)
    (rest : List CompletionOutput) (l : List (String × Py))
    (b1 b2 b3 b4 b5 : Bool) (r : String)
    (h : out.outputs = o :: rest)
    (hd : jl (pyStrip o.text) = .ok (Py.dict l))
    (k1 : dictLookup "individual_voice" l = some (.bool b1))
    (k2 : dictLookup "collective_voice" l = some (.bool b2))
    (k3 : dictLookup "internal_deliberation" l = some (.bool b3))
    (k4 : dictLookup "align_with_company" l = some (.bool b4))
    (k5 : dictLookup "none_of_the_above" l = some (.bool b5))
    (k6 : dictLookup "reason" l = some (.str r)) :
    Rubric0Shot.row jl out =
      ⟨pyStrip o.text, .bool b1, .bool b2, .bool b3, .bool b4, .bool b5,
        .str r⟩ ∧
    (Rubric0Shot.row jl out).indiv ≠ Py.none ∧
    (Rubric0Shot.row jl out).coll ≠ Py.none ∧
    (Rubric0Shot.row jl out).deliber ≠ Py.none ∧
    (Rubric0Shot.row jl out).alignc ≠ Py.none ∧
    (Rubric0Shot.row jl out).noneOf ≠ Py.none ∧
    (Rubric0Shot.row jl out).reason ≠ Py.none := by
  have hrow := row_of_dict h hd
  rw [k1, k2, k3, k4, k5, k6] at hrow
  simp only [Option.getD_some] at hrow
  refine ⟨hrow, ?_, ?_, ?_, ?_, ?_, ?_⟩ <;> rw [hrow] <;> simp

/-- Witness for C5 at the stub parser returning the full six-field
object. -/
theorem c5_schema_fields_boolean_witness :
    Rubric0Shot.row jlSchema outSchema =
      ⟨"J", .bool true, .bool false, .bool true, .bool false, .bool false,
        .str "ok"⟩ :=
  (c5_schema_fields_boolean jlSchema outSchema ⟨"J"⟩ []
    [("individual_voice", .bool true), ("collective_voice", .bool false),
     ("internal_deliberation", .bool true), ("align_with_company", .bool false),
     ("none_of_the_above", .bool false), ("reason", .str "ok")]
    true false true false false "ok" rfl rfl rfl rfl rfl rfl rfl rfl).1

theorem map_const_eq_len {α β γ : Type} {b : γ} :
    ∀ (l1 : List α) (l2 : List β), l1.length = l2.length →
      l1.map (fun _ => b) = l2.map (fun _ => b) := by
  intro l1
  induction l1 with
  | nil =>
    intro l2 h
    cases l2 with
    | nil => rfl
    | cons x t => simp at h
  | cons x t ih =>
    intro l2 h
    cases l2 with
    | nil => simp at h
    | cons y t2 =>
      simp only [List.map_cons]
      rw [ih t2 (by simpa using h)]

/-- C8: In the few-shot variant, for every row whose result has generated
content, no parsing is attempted and the stored label is exactly the
generated text stripped of leading and trailing whitespace; the collector
is exactly the elementwise label map, and against a service that returns a
fixed string for every row, the written `voice_label` column holds exactly
that string trimmed, once per row. -/
theorem c8_many_raw_label (out : RequestOutput) (o : CompletionOutput)
    (rest : List CompletionOutput) (h : out.outputs = o :: rest) :
    RubricManyShots.labelOf out = pyStrip o.text ∧
    (∀ outs : List RequestOutput,
      RubricManyShots.collect outs = outs.map RubricManyShots.labelOf) ∧
    (∀ (s : String) (df : Table) (t : Table),
      RubricManyShots.main (genFixed s) df = .ok t →
      t.col "voice_label" =
        (extractComments df).map (fun _ => Py.str (pyStrip s))) := by
  refine ⟨labelOf_of_cons h, collect_eq_many, ?_⟩
  intro s df t hok
  obtain ⟨hmem, ps, hbp, hlen, ht⟩ := main_many_ok hok
  subst ht
  have hL : ((genFixed s ps).map RubricManyShots.labelOf).map Py.str =
      ps.map (fun _ => Py.str (pyStrip s)) := by
    simp only [genFixed, List.map_map]
    rfl
  rw [Table.setCol_col_self, collect_eq_many, hL]
  exact map_const_eq_len ps (extractComments df) hlen

/-- Witness for C8: a result with whitespace-padded text is stored trimmed,
and an end-to-end run against the fixed-echo service fills the label column
with the trimmed string. -/
theorem c8_many_raw_label_witness :
    RubricManyShots.labelOf outWs = "yes" ∧
    Table.col tFix "voice_label" = [Py.str "yes"] := by
  constructor
  · exact (c8_many_raw_label outWs ⟨"  yes\n"⟩ [] rfl).1
  · have h := (c8_many_raw_label outWs ⟨"  yes\n"⟩ [] rfl).2.2
      "  yes\n" dfA tFix rfl
    exact h

/-- C1: For every well-formed input table and every service that returns
one result per prompt, the written output table is well formed with exactly
as many rows as the input table, in both variants; moreover each pass of
the collection loop appends exactly one value to every output column list,
so every output list has one entry per result. -/
theorem c1_output_row_count (jl : String → Except String Py)
    (gen : List String → List RequestOutput) (df : Table)
    (hwf : df.wf) (hgen : ∀ ps, (gen ps).length = ps.length) :
    (∀ t, Rubric0Shot.main jl gen df = .ok t →
      t.wf ∧ t.nrows = df.nrows) ∧
    (∀ t, RubricManyShots.main gen df = .ok t →
      t.wf ∧ t.nrows = df.nrows) ∧
    (∀ outs : List RequestOutput,
      (Rubric0Shot.collect jl outs).raws.length = outs.length ∧
      (Rubric0Shot.collect jl outs).indiv.length = outs.length ∧
      (Rubric0Shot.collect jl outs).coll.length = outs.length ∧
      (Rubric0Shot.collect jl outs).deliber.length = outs.length ∧
      (Rubric0Shot.collect jl outs).alignc.length = outs.length ∧
      (Rubric0Shot.collect jl outs).noneOf.length = outs.length ∧
      (Rubric0Shot.collect jl outs).reasons.length = outs.length ∧
      (RubricManyShots.collect outs).length = outs.length) := by
  refine ⟨?_, ?_, ?_⟩
  · intro t h
    obtain ⟨hmem, ps, hbp, hlen, ht⟩ := main_zero_ok h
    have hcomm : (extractComments df).length = df.nrows := by
      rw [extractComments, List.length_map]
      exact Table.col_length_of_mem hwf hmem
    have houts : (gen ps).length = df.nrows := by
      rw [hgen ps, hlen, hcomm]
    have hne := Table.cols_ne_nil_of_mem hmem
    rw [ht]
    refine finishTable_pres hwf hne ?_ ?_ ?_ ?_ ?_ ?_ ?_ <;>
      rw [collect_eq_zero] <;> simpa using houts
  · intro t h
    obtain ⟨hmem, ps, hbp, hlen, ht⟩ := main_many_ok h
    have hcomm : (extractComments df).length = df.nrows := by
      rw [extractComments, List.length_map]
      exact Table.col_length_of_mem hwf hmem
    have houts : (gen ps).length = df.nrows := by
      rw [hgen ps, hlen, hcomm]
    have hne := Table.cols_ne_nil_of_mem hmem
    rw [ht]
    have hset := @Table.setCol_pres df "voice_label"
      ((RubricManyShots.collect (gen ps)).map Py.str) hwf hne
      (by rw [collect_eq_many]; simpa using houts)
    exact ⟨hset.1, hset.2.1⟩
  · intro outs
    rw [collect_eq_zero, collect_eq_many]
    simp

/-- Witness for C1 at the concrete table `dfA` with the stub services. -/
theorem c1_output_row_count_witness :
    Table.wf tA ∧ Table.nrows tA = Table.nrows dfA :=
  (c1_output_row_count jlStub genEmptyOut dfA
    (by show ∀ c ∈ dfA.cols, c.2.length = dfA.nrows; decide)
    (fun ps => by simp [genEmptyOut])).1 tA rfl

/-- C9 counterexample: the claim "writing the output changes nothing in the
pre-existing columns" fails on the concrete table `dfC`, which already has
a column named `reason`: the zero-shot run overwrites it (pandas column
assignment replaces an existing column of the same name). -/
theorem c9_counterexample :
    Rubric0Shot.main jlStub genEmptyOut dfC = .ok tC ∧
    Table.col tC "reason" = [Py.str "LLM returned empty output"] ∧
    Table.col dfC "reason" = [Py.str "x"] ∧
    Table.col tC "reason" ≠ Table.col dfC "reason" := by
  refine ⟨rfl, rfl, rfl, ?_⟩
  intro h
  have h2 : ([Py.str "LLM returned empty output"] : List Py) =
      [Py.str "x"] := h
  injection h2 with h3 _
  injection h3 with h4
  exact absurd h4 (by decide)

/-- C9 amended: writing the output leaves every pre-existing column whose
name is not one of the appended result-column names unchanged (zero-shot:
`voice_label_raw_json`, the five label names and `reason`; few-shot:
`voice_label`); a pre-existing column sharing a result column name is
overwritten, as the counterexample shows. -/
theorem c9_passthrough_amended :
    (∀ (jl : String → Except String Py)
       (gen : List String → List RequestOutput)
       (df : Table) (name : String) (t : Table),
      name ≠ "voice_label_raw_json" → name ≠ "individual_voice" →
      name ≠ "collective_voice" → name ≠ "internal_deliberation" →
      name ≠ "align_with_company" → name ≠ "none_of_the_above" →
      name ≠ "reason" →
      Rubric0Shot.main jl gen df = .ok t →
      t.col name = df.col name) ∧
    (∀ (gen : List String → List RequestOutput) (df : Table)
       (name : String) (t : Table),
      name ≠ "voice_label" →
      RubricManyShots.main gen df = .ok t →
      t.col name = df.col name) := by
  constructor
  · intro jl gen df name t h1 h2 h3 h4 h5 h6 h7 h
    obtain ⟨_, ps, _, _, ht⟩ := main_zero_ok h
    rw [ht]
    exact finishTable_col_ne h1 h2 h3 h4 h5 h6 h7
  · intro gen df name t h1 h
    obtain ⟨_, ps, _, _, ht⟩ := main_many_ok h
    rw [ht]
    exact Table.setCol_col_ne h1.symm

/-- Witness for the amended C9: the pre-existing `id` column of `dfA`
survives both runs unchanged. -/
theorem c9_passthrough_amended_witness :
    Table.col tA "id" = Table.col dfA "id" ∧
    Table.col tAM "id" = Table.col dfA "id" := by
  constructor
  · exact c9_passthrough_amended.1 jlStub genEmptyOut dfA "id" tA
      (by decide) (by decide) (by decide) (by decide) (by decide)
      (by decide) (by decide) rfl
  · exact c9_passthrough_amended.2 genEmptyOut dfA "id" tAM (by decide) rfl

/-- C10 counterexample: when the generated text parses as JSON but not as
an object (here the number `3`), the claim says no error marker is
recorded and the reason defaults to the empty string; in fact the `.get`
call raises an `AttributeError` which the per-row handler catches,
recording the parse-error marker as the reason. -/
theorem c10_counterexample :
    (Rubric0Shot.row jlNonObj outNonObj).reason =
      Py.str ("JSON parse error: " ++ noAttrMsg (Py.int 3)) ∧
    (Rubric0Shot.row jlNonObj outNonObj).indiv = Py.none ∧
    (Rubric0Shot.row jlNonObj outNonObj).reason ≠ Py.str "" := by
  refine ⟨rfl, rfl, ?_⟩
  intro h
  have h2 : Py.str
      "JSON parse error: \x27int\x27 object has no attribute \x27get\x27" =
      Py.str "" := h
  injection h2 with h3
  exact absurd h3 (by decide)

/-- C10 amended: in the zero-shot variant, if the generated text of a row parses
as a JSON object (possibly missing some or all of the six named fields),
no error is raised and no error marker is recorded: each label field is
the value stored in the object via dictionary `get` (null when missing) and a missing
`reason` field defaults to the empty string; the non-object case instead
records the parse-error marker, as the counterexample shows. -/
theorem c10_missing_fields_amended (jl : String → Except String Py)
    (out : RequestOutput) (o : CompletionOutput)
    (rest : List CompletionOutput) (l : List (String × Py))
    (h : out.outputs = o :: rest)
    (hd : jl (pyStrip o.text) = .ok (Py.dict l)) :
    Rubric0Shot.row jl out =
      ⟨pyStrip o.text,
        (dictLookup "individual_voice" l).getD .none,
        (dictLookup "collective_voice" l).getD .none,
        (dictLookup "internal_deliberation" l).getD .none,
        (dictLookup "align_with_company" l).getD .none,
        (dictLookup "none_of_the_above" l).getD .none,
        (dictLookup "reason" l).getD (Py.str "")⟩ ∧
    (dictLookup "reason" l = Option.none →
      (Rubric0Shot.row jl out).reason = Py.str "") := by
  have hrow := row_of_dict h hd
  refine ⟨hrow, ?_⟩
  intro hr
  rw [hrow]
  simp [hr]

/-- Witness for the amended C10: an empty JSON object yields null labels,
an empty reason and no error marker. -/
theorem c10_missing_fields_amended_witness :
    Rubric0Shot.row jlEmptyObj outEmptyObj =
      ⟨"O", Py.none, Py.none, Py.none, Py.none, Py.none, Py.str ""⟩ :=
  (c10_missing_fields_amended jlEmptyObj outEmptyObj ⟨"O"⟩ [] []
    rfl rfl).1
